import Mathlib

/-!
Verification development for the llm-proxy request-routing and
format-translation core.  The definitions below are shallow embeddings
of the Python sources under `src/`:

* `src/providers/base.py`      — canonical data model (`ChatMessage`,
  `ChatRequest`, `ChatStreamResponse`, `EmbeddingRequest`, `ProviderError`);
* `src/providers/claude.py`    — the Anthropic-style adapter
  (request translation, streaming, model support);
* `src/providers/openai.py`    — the OpenAI-style adapter;
* `src/providers/azure.py`     — the Azure-style adapter;
* `src/providers/factory.py`   — the adapter factory / model router.

Python `float` fields are modelled as exact rationals `ℚ`; Python
truthiness of optional strings/numbers is modelled explicitly by the
`pyTruthy*` helpers; Python's `str.lower`, `str.startswith` and the
`in` substring operator are modelled over character lists so that every
definition evaluates by kernel reduction.
-/

/-- Python truthiness of an optional string: `None` and `""` are falsy. -/
def pyTruthyStr : Option String → Bool
  | some s => s ≠ ""
  | none => false

/-- Python truthiness of an optional float: `None` and `0.0` are falsy. -/
def pyTruthyQ : Option ℚ → Bool
  | some x => x ≠ 0
  | none => false

/-- Python truthiness of an optional int: `None` and `0` are falsy. -/
def pyTruthyInt : Option Int → Bool
  | some n => n ≠ 0
  | none => false

/-- Python `min(a, b)` on floats (modelled on `ℚ`). -/
def pyMin (a b : ℚ) : ℚ := if a ≤ b then a else b

/-- Python `max(a, b)` on floats (modelled on `ℚ`). -/
def pyMax (a b : ℚ) : ℚ := if a ≤ b then b else a

/-- Prefix test on character lists (model of Python `str.startswith`). -/
def charsStartWith : List Char → List Char → Bool
  | [], _ => true
  | _ :: _, [] => false
  | p :: ps, c :: cs => p == c && charsStartWith ps cs

/-- Substring test on character lists (model of the Python `in` operator;
an empty pattern occurs in every string). -/
def charsContain (pat : List Char) : List Char → Bool
  | [] => charsStartWith pat []
  | c :: cs => charsStartWith pat (c :: cs) || charsContain pat cs

/-- Model of Python `str.startswith`. -/
def pyStartsWith (s pre : String) : Bool := charsStartWith pre.data s.data

/-- Model of the Python substring operator `pat in s`. -/
def pyContains (s pat : String) : Bool := charsContain pat.data s.data

/-- Model of Python `str.lower` (ASCII case folding, as `Char.toLower`). -/
def pyLower (s : String) : String := String.mk (s.data.map Char.toLower)

/-- `ChatMessage` from `src/providers/base.py` lines 19-23: a pydantic
model with a plain string role and string content (no enum constraint). -/
structure ChatMessage where
  role : String
  content : String
deriving DecidableEq, Repr

/-- `ChatRequest` from `src/providers/base.py` lines 25-35: the canonical
chat-completion request.  Optional numeric fields default to `None`
(`none`) and `stream` defaults to `False`; no field validators are
declared on the pydantic model. -/
structure ChatRequest where
  model : String
  messages : List ChatMessage
  max_tokens : Option Int := none
  temperature : Option ℚ := none
  stream : Bool := false
  top_p : Option ℚ := none
  frequency_penalty : Option ℚ := none
  presence_penalty : Option ℚ := none
deriving DecidableEq, Repr

/-- The `delta` object carried by a streaming chunk choice
(`src/providers/claude.py` lines 112-116, 136-140, 153-157). -/
structure StreamDelta where
  role : Option String := none
  content : Option String := none
deriving DecidableEq, Repr

/-- One element of `ChatStreamResponse.choices` (the dict literal built
in `src/providers/claude.py`, typed). -/
structure ChatStreamChoice where
  index : Nat := 0
  delta : StreamDelta := {}
  finish_reason : Option String := none
deriving DecidableEq, Repr

/-- `ChatStreamResponse` from `src/providers/base.py` lines 47-53. -/
structure ChatStreamResponse where
  id : String
  object : String
  created : Nat
  model : String
  choices : List ChatStreamChoice
deriving DecidableEq, Repr

/-- `EmbeddingRequest` from `src/providers/base.py` lines 56-59; the
input is a single text or a list of texts. -/
structure EmbeddingRequest where
  model : String
  input : String ⊕ List String
deriving DecidableEq, Repr

/-- `ProviderError` from `src/providers/base.py` lines 70-76: the single
exception type used by providers and factory, with `status_code`
defaulting to 500 and an optional provider name. -/
structure ProviderError where
  message : String
  status_code : Nat := 500
  provider : Option String := none
deriving DecidableEq, Repr

/-- `True` result test for `Except`-valued computations. -/
def exceptIsOk {ε α : Type} : Except ε α → Bool
  | Except.ok _ => true
  | Except.error _ => false

instance {ε α : Type} [DecidableEq ε] [DecidableEq α] : DecidableEq (Except ε α) := fun x y =>
  match x, y with
  | Except.ok a, Except.ok b =>
      if h : a = b then isTrue (by rw [h]) else isFalse (by intro hh; cases hh; exact h rfl)
  | Except.error a, Except.error b =>
      if h : a = b then isTrue (by rw [h]) else isFalse (by intro hh; cases hh; exact h rfl)
  | Except.ok _, Except.error _ => isFalse (by intro hh; cases hh)
  | Except.error _, Except.ok _ => isFalse (by intro hh; cases hh)

/-- The payload built by `ClaudeProvider._convert_request_to_claude_format`
(`src/providers/claude.py` lines 321-349), typed: `system` and `top_p`
are optional keys, the rest are always present. -/
structure ClaudeRequestPayload where
  model : String
  messages : List ChatMessage
  max_tokens : Int
  temperature : ℚ
  system : Option String := none
  top_p : Option ℚ := none
deriving DecidableEq, Repr

/-- `ClaudeProvider._convert_request_to_claude_format`
(`src/providers/claude.py` lines 321-349).  The loop keeps each
non-system message in order and overwrites `system_prompt` with the
content of every system message encountered (so the last one wins);
`max_tokens` and `temperature` use Python `or` defaults (falsy values,
i.e. `None` and `0`, are replaced by 4096 resp. 0.7); the `system` and
`top_p` keys are added only when truthy. -/
def ClaudeProvider.convert_request_to_claude_format (request : ChatRequest) :
    ClaudeRequestPayload :=
  let system_prompt : Option String :=
    request.messages.foldl
      (fun acc msg => if msg.role = "system" then some msg.content else acc) none
  let messages : List ChatMessage :=
    request.messages.filter (fun msg => msg.role ≠ "system")
  { model := request.model
    messages := messages
    max_tokens :=
      match request.max_tokens with
      | some n => if n = 0 then 4096 else n
      | none => 4096
    temperature :=
      match request.temperature with
      | some t => if t = 0 then mkRat 7 10 else t
      | none => mkRat 7 10
    system := if pyTruthyStr system_prompt then system_prompt else none
    top_p := if pyTruthyQ request.top_p then request.top_p else none }

/-- Events of the upstream Anthropic stream, as discriminated by
`ClaudeProvider.chat_completion_stream` (`src/providers/claude.py`
lines 120-178): `content_block_delta` carries an optional text,
`message_delta` an optional stop reason, `message_stop` ends the
stream, and any other event type is skipped. -/
inductive ClaudeStreamEvent where
  | contentBlockDelta (text : Option String)
  | messageDelta (stop_reason : Option String)
  | messageStop
  | otherEvent (type : String)
deriving DecidableEq, Repr

/-- The synthetic first chunk of the Claude stream
(`src/providers/claude.py` lines 107-118): role `assistant`, no
content, no finish reason.  `now` models `int(time.time())`, used both
in the chunk id and in `created`. -/
def ClaudeProvider.initial_response (now : Nat) (model : String) : ChatStreamResponse :=
  { id := "chatcmpl-" ++ toString now
    object := "chat.completion.chunk"
    created := now
    model := model
    choices := [{ index := 0, delta := { role := some "assistant" }, finish_reason := none }] }

/-- A content-bearing chunk (`src/providers/claude.py` lines 131-142). -/
def ClaudeProvider.content_chunk (now : Nat) (model text : String) : ChatStreamResponse :=
  { id := "chatcmpl-" ++ toString now
    object := "chat.completion.chunk"
    created := now
    model := model
    choices := [{ index := 0, delta := { content := some text }, finish_reason := none }] }

/-- A finish-reason-bearing chunk (`src/providers/claude.py`
lines 148-159, 163-174 and 181-192). -/
def ClaudeProvider.finish_chunk (now : Nat) (model reason : String) : ChatStreamResponse :=
  { id := "chatcmpl-" ++ toString now
    object := "chat.completion.chunk"
    created := now
    model := model
    choices := [{ index := 0, delta := {}, finish_reason := some reason }] }

/-- The defensive final chunk sent after the upstream loop
(`src/providers/claude.py` lines 181-192). -/
def ClaudeProvider.final_response (now : Nat) (model : String) : ChatStreamResponse :=
  ClaudeProvider.finish_chunk now model "stop"

/-- The event-processing loop of `ClaudeProvider.chat_completion_stream`
(`src/providers/claude.py` lines 120-192): `content_block_delta` with a
truthy text yields a content chunk; `message_delta` with a truthy
`stop_reason` yields a finish chunk and the loop continues;
`message_stop` yields a finish chunk and breaks out of the loop;
unrecognized events are skipped.  After the loop (by `break` or
exhaustion) the unconditional `final_response` is yielded. -/
def ClaudeProvider.process_stream_events (now : Nat) (model : String) :
    List ClaudeStreamEvent → List ChatStreamResponse
  | [] => [ClaudeProvider.final_response now model]
  | ClaudeStreamEvent.contentBlockDelta text :: rest =>
      match text with
      | some t =>
          if t = "" then ClaudeProvider.process_stream_events now model rest
          else ClaudeProvider.content_chunk now model t ::
            ClaudeProvider.process_stream_events now model rest
      | none => ClaudeProvider.process_stream_events now model rest
  | ClaudeStreamEvent.messageDelta stop :: rest =>
      match stop with
      | some s =>
          if s = "" then ClaudeProvider.process_stream_events now model rest
          else ClaudeProvider.finish_chunk now model s ::
            ClaudeProvider.process_stream_events now model rest
      | none => ClaudeProvider.process_stream_events now model rest
  | ClaudeStreamEvent.messageStop :: _ =>
      [ClaudeProvider.finish_chunk now model "stop", ClaudeProvider.final_response now model]
  | ClaudeStreamEvent.otherEvent _ :: rest =>
      ClaudeProvider.process_stream_events now model rest

/-- `ClaudeProvider.chat_completion_stream` (`src/providers/claude.py`
lines 78-192), as the finite list of chunks produced for a given finite
upstream event sequence: the synthetic initial role chunk followed by
the processed events.  `now` abstracts `int(time.time())`. -/
def ClaudeProvider.chat_completion_stream (now : Nat) (request : ChatRequest)
    (events : List ClaudeStreamEvent) : List ChatStreamResponse :=
  ClaudeProvider.initial_response now request.model ::
    ClaudeProvider.process_stream_events now request.model events

/-- A chunk carries a finish reason when some choice has a non-null
`finish_reason`. -/
def hasFinishReason (c : ChatStreamResponse) : Bool :=
  c.choices.any fun ch => ch.finish_reason.isSome

/-- An upstream event sequence contains no stop-signalling event: no
`message_stop` and no `message_delta` with a truthy stop reason. -/
def noStopEvent (events : List ClaudeStreamEvent) : Bool :=
  events.all fun e =>
    match e with
    | ClaudeStreamEvent.messageStop => false
    | ClaudeStreamEvent.messageDelta (some s) => s = ""
    | _ => true

/-- The static OpenAI model allowlist of `OpenAIProvider.is_model_supported`
(`src/providers/openai.py` lines 69-107). -/
def openai_models : List String :=
  ["gpt-4", "gpt-4-0613", "gpt-4-32k", "gpt-4-32k-0613", "gpt-4-1106-preview",
   "gpt-4-0125-preview", "gpt-4-turbo-preview", "gpt-4-turbo",
   "gpt-4-turbo-2024-04-09", "gpt-4o", "gpt-4o-2024-05-13", "gpt-4o-2024-08-06",
   "gpt-4o-mini", "gpt-4o-mini-2024-07-18",
   "gpt-3.5-turbo", "gpt-3.5-turbo-0613", "gpt-3.5-turbo-16k",
   "gpt-3.5-turbo-16k-0613", "gpt-3.5-turbo-1106", "gpt-3.5-turbo-0125",
   "text-embedding-ada-002", "text-embedding-3-small", "text-embedding-3-large",
   "o1-preview", "o1-preview-2024-09-12", "o1-mini", "o1-mini-2024-09-12"]

/-- `OpenAIProvider.is_model_supported` (`src/providers/openai.py`
lines 69-107): exact membership in the static set. -/
def OpenAIProvider.is_model_supported (model : String) : Bool :=
  decide (model ∈ openai_models)

/-- The static Azure model allowlist of
`AzureOpenAIProvider.is_model_supported` (`src/providers/azure.py`
lines 98-112). -/
def azure_models : List String :=
  ["gpt-4o", "gpt-4", "gpt-4-32k", "gpt-35-turbo", "gpt-35-turbo-16k",
   "text-embedding-ada-002", "text-embedding-3-small", "text-embedding-3-large",
   "gpt-4-turbo", "gpt-4-turbo-2024-04-09"]

/-- `AzureOpenAIProvider.is_model_supported` (`src/providers/azure.py`
lines 98-112): exact membership in the static set. -/
def AzureOpenAIProvider.is_model_supported (model : String) : Bool :=
  decide (model ∈ azure_models)

/-- `ClaudeProvider.get_supported_models` (`src/providers/claude.py`
lines 313-319). -/
def ClaudeProvider.get_supported_models : List String :=
  ["claude-3-5-sonnet-20241022", "claude-3-5-haiku-20241022", "claude-3-opus-20240229"]

/-- `ClaudeProvider.is_model_supported` (`src/providers/claude.py`
lines 261-275): true when the lowercased model equals a lowercased
supported id, or — the loop `if model_lower in supported_model.lower()`
— when the lowercased model occurs as a substring of a lowercased
supported id. -/
def ClaudeProvider.is_model_supported (model : String) : Bool :=
  let supported := ClaudeProvider.get_supported_models
  let model_lower := pyLower model
  if model_lower ∈ supported.map pyLower then true
  else supported.any fun supported_model => pyContains (pyLower supported_model) model_lower

/-- The `chat_params` dict built by `OpenAIProvider.chat_completion`
(`src/providers/openai.py` lines 123-142), typed: optional keys are
added only under the source's conditions (`if request.max_tokens:`
truthiness for `max_tokens`, `is not None` plus clamping for the
sampling fields). -/
structure OpenAIChatParams where
  model : String
  messages : List ChatMessage
  max_tokens : Option Int := none
  temperature : Option ℚ := none
  top_p : Option ℚ := none
  frequency_penalty : Option ℚ := none
  presence_penalty : Option ℚ := none
deriving DecidableEq, Repr

/-- The parameter construction of `OpenAIProvider.chat_completion`
(`src/providers/openai.py` lines 118-142): messages pass through
unchanged (`_convert_messages_format` is the identity), `max_tokens` is
sent only when truthy, and each sampling field present in the request
is clamped with `max(lo, min(hi, x))`. -/
def OpenAIProvider.build_chat_params (request : ChatRequest) : OpenAIChatParams :=
  { model := request.model
    messages := request.messages
    max_tokens := if pyTruthyInt request.max_tokens then request.max_tokens else none
    temperature := request.temperature.map fun t => pyMax 0 (pyMin 2 t)
    top_p := request.top_p.map fun p => pyMax 0 (pyMin 1 p)
    frequency_penalty := request.frequency_penalty.map fun f => pyMax (-2) (pyMin 2 f)
    presence_penalty := request.presence_penalty.map fun p => pyMax (-2) (pyMin 2 p) }

/-- `OpenAIProvider.chat_completion` (`src/providers/openai.py`
lines 113-142) up to the outbound payload: an unsupported model is
rejected before any translation, otherwise the outbound `chat_params`
are produced.  The upstream HTTP call and response translation are not
modelled. -/
def OpenAIProvider.chat_completion (request : ChatRequest) :
    Except ProviderError OpenAIChatParams :=
  if ¬ OpenAIProvider.is_model_supported request.model then
    Except.error { message := "Model " ++ request.model ++ " not supported by OpenAI"
                   provider := some "openai" }
  else
    Except.ok (OpenAIProvider.build_chat_params request)

/-- The `payload` dict built by `AzureOpenAIProvider.chat_completion`
(`src/providers/azure.py` lines 128-145), typed; the model goes into
the deployment URL, not the payload. -/
structure AzureChatPayload where
  messages : List ChatMessage
  max_tokens : Option Int := none
  temperature : Option ℚ := none
  top_p : Option ℚ := none
  frequency_penalty : Option ℚ := none
  presence_penalty : Option ℚ := none
deriving DecidableEq, Repr

/-- The payload construction of `AzureOpenAIProvider.chat_completion`
(`src/providers/azure.py` lines 123-145): identical field handling to
the OpenAI adapter (truthy `max_tokens`, clamped sampling fields). -/
def AzureOpenAIProvider.build_chat_payload (request : ChatRequest) : AzureChatPayload :=
  { messages := request.messages
    max_tokens := if pyTruthyInt request.max_tokens then request.max_tokens else none
    temperature := request.temperature.map fun t => pyMax 0 (pyMin 2 t)
    top_p := request.top_p.map fun p => pyMax 0 (pyMin 1 p)
    frequency_penalty := request.frequency_penalty.map fun f => pyMax (-2) (pyMin 2 f)
    presence_penalty := request.presence_penalty.map fun p => pyMax (-2) (pyMin 2 p) }

/-- `AzureOpenAIProvider.chat_completion` (`src/providers/azure.py`
lines 118-145) up to the outbound payload. -/
def AzureOpenAIProvider.chat_completion (request : ChatRequest) :
    Except ProviderError AzureChatPayload :=
  if ¬ AzureOpenAIProvider.is_model_supported request.model then
    Except.error { message := "Model " ++ request.model ++ " not supported by Azure"
                   provider := some "azure" }
  else
    Except.ok (AzureOpenAIProvider.build_chat_payload request)

/-- The `client_kwargs` built by `ClaudeProvider.chat_completion`
(`src/providers/claude.py` lines 36-62), typed: `system` is added only
when truthy, `temperature` and `top_p` are taken raw from the request
when not `None`. -/
structure ClaudeClientKwargs where
  model : String
  messages : List ChatMessage
  max_tokens : Int
  system : Option String := none
  temperature : Option ℚ := none
  top_p : Option ℚ := none
deriving DecidableEq, Repr

/-- `ClaudeProvider.chat_completion` (`src/providers/claude.py`
lines 36-66) up to the outbound `client_kwargs`: an unsupported model
is rejected first; otherwise the request is converted and the kwargs
assembled from the converted format (messages, max_tokens, truthy
system) and the raw request (temperature, top_p). -/
def ClaudeProvider.chat_completion (request : ChatRequest) :
    Except ProviderError ClaudeClientKwargs :=
  if ¬ ClaudeProvider.is_model_supported request.model then
    Except.error { message := "Model " ++ request.model ++ " not supported by Claude"
                   provider := some "claude" }
  else
    let claude_request := ClaudeProvider.convert_request_to_claude_format request
    Except.ok
      { model := request.model
        messages := claude_request.messages
        max_tokens := claude_request.max_tokens
        system := if pyTruthyStr claude_request.system then claude_request.system else none
        temperature := request.temperature
        top_p := request.top_p }

/-- `OpenAIProvider.create_embeddings` (`src/providers/openai.py`
lines 251-260) up to the outbound call: unsupported models are
rejected, otherwise the model and input pass through. -/
def OpenAIProvider.create_embeddings (request : EmbeddingRequest) :
    Except ProviderError EmbeddingRequest :=
  if ¬ OpenAIProvider.is_model_supported request.model then
    Except.error { message := "Model " ++ request.model ++ " not supported by OpenAI"
                   provider := some "openai" }
  else
    Except.ok request

/-- `AzureOpenAIProvider.create_embeddings` (`src/providers/azure.py`
lines 210-217) up to the outbound payload `{'input': request.input}`. -/
def AzureOpenAIProvider.create_embeddings (request : EmbeddingRequest) :
    Except ProviderError (String ⊕ List String) :=
  if ¬ AzureOpenAIProvider.is_model_supported request.model then
    Except.error { message := "Model " ++ request.model ++ " not supported by Azure"
                   provider := some "azure" }
  else
    Except.ok request.input

/-- `ClaudeProvider.create_embeddings` (`src/providers/claude.py`
lines 256-259): always fails with status 501, for every request. -/
def ClaudeProvider.create_embeddings (request : EmbeddingRequest) :
    Except ProviderError Empty :=
  Except.error { message := "Claude does not support embeddings"
                 status_code := 501
                 provider := some "claude" }

/-- A provider's configuration dict (values of `config['providers']`),
with every key optional, matching the `.get` accesses in
`src/providers/factory.py`, `claude.py`, `openai.py` and `azure.py`.
A present key with a string value is modelled as `some`; an absent key
as `none`. -/
structure ProviderConfigDict where
  enabled : Option Bool := none
  api_key : Option String := none
  base_url : Option String := none
  endpoint : Option String := none
  api_version : Option String := none
  organization : Option String := none
deriving DecidableEq, Repr

/-- The configuration dict handed to `ProviderFactory`
(`src/providers/factory.py` lines 22-25): the `providers` sub-dict may
map a provider name to an explicit `None` (modelled `(name, none)`),
and `model_mapping` maps model names to provider names. -/
structure FactoryConfig where
  providers : List (String × Option ProviderConfigDict) := []
  model_mapping : List (String × String) := []
deriving DecidableEq, Repr

/-- `self.config.get('providers', {}).get(provider_name, {})`: a missing
key yields the empty dict, a present key yields its value (which may be
the explicit `None`). -/
def FactoryConfig.getProviderEntry (config : FactoryConfig) (provider_name : String) :
    Option ProviderConfigDict :=
  match config.providers.lookup provider_name with
  | some v => v
  | none => some {}

/-- Adapter instances, one constructor per provider class registered in
`ProviderFactory._providers` (`src/providers/factory.py` lines 16-20),
holding the fields each `__init__` stores. -/
inductive ProviderInstance where
  | claude (api_key : String) (base_url : Option String) (api_version : String)
  | openai (api_key : String) (base_url : Option String) (organization : Option String)
  | azure (api_key : String) (endpoint : String) (api_version : String)
deriving DecidableEq, Repr

/-- Model of Python `str.rstrip('/')`: drop trailing slash characters
(`src/providers/azure.py` line 28). -/
def pyRStripSlash (s : String) : String :=
  String.mk ((s.data.reverse.dropWhile (fun c => c == '/')).reverse)

/-- `ClaudeProvider.__init__` (`src/providers/claude.py` lines 18-34):
requires a truthy api_key, stores the optional base_url and the
api_version defaulted to `2023-06-01`. -/
def ClaudeProvider.init (config : ProviderConfigDict) :
    Except ProviderError ProviderInstance :=
  if ¬ pyTruthyStr config.api_key then
    Except.error { message := "Claude API key is required", provider := some "claude" }
  else
    Except.ok (ProviderInstance.claude (config.api_key.getD "") config.base_url
      (config.api_version.getD "2023-06-01"))

/-- `OpenAIProvider.__init__` (`src/providers/openai.py` lines 19-39):
requires a truthy api_key. -/
def OpenAIProvider.init (config : ProviderConfigDict) :
    Except ProviderError ProviderInstance :=
  if ¬ pyTruthyStr config.api_key then
    Except.error { message := "OpenAI API key is required", provider := some "openai" }
  else
    Except.ok (ProviderInstance.openai (config.api_key.getD "") config.base_url
      config.organization)

/-- `AzureOpenAIProvider.__init__` (`src/providers/azure.py`
lines 16-28): requires a truthy api_key and a truthy endpoint; the
endpoint is normalized by stripping trailing slashes; api_version
defaults to `2024-10-21`. -/
def AzureOpenAIProvider.init (config : ProviderConfigDict) :
    Except ProviderError ProviderInstance :=
  if ¬ pyTruthyStr config.api_key then
    Except.error { message := "Azure OpenAI API key is required", provider := some "azure" }
  else if ¬ pyTruthyStr config.endpoint then
    Except.error { message := "Azure OpenAI endpoint is required", provider := some "azure" }
  else
    Except.ok (ProviderInstance.azure (config.api_key.getD "")
      (pyRStripSlash (config.endpoint.getD "")) (config.api_version.getD "2024-10-21"))

/-- The registered provider names, in the order of the
`ProviderFactory._providers` dict (`src/providers/factory.py`
lines 16-20). -/
def ProviderFactory.registered_providers : List String := ["claude", "openai", "azure"]

/-- `ProviderFactory.create_provider` (`src/providers/factory.py`
lines 27-36): unknown names fail with `Unknown provider`; a failing
constructor is caught and re-raised as
`Failed to create {name} provider: {message}`. -/
def ProviderFactory.create_provider (provider_name : String)
    (provider_config : ProviderConfigDict) : Except ProviderError ProviderInstance :=
  if provider_name ∉ ProviderFactory.registered_providers then
    Except.error { message := "Unknown provider: " ++ provider_name }
  else
    let constructed : Except ProviderError ProviderInstance :=
      if provider_name = "claude" then ClaudeProvider.init provider_config
      else if provider_name = "openai" then OpenAIProvider.init provider_config
      else AzureOpenAIProvider.init provider_config
    match constructed with
    | Except.ok p => Except.ok p
    | Except.error e =>
        Except.error { message := "Failed to create " ++ provider_name ++ " provider: " ++ e.message }

/-- `ProviderFactory.get_provider` (`src/providers/factory.py`
lines 38-47), cache-miss path.  The instance cache is elided: a cached
instance can only exist for a provider whose earlier `get_provider`
passed this very check on the same immutable config, so the cached and
uncached outcomes agree.  A provider entry explicitly set to `None`
makes the Python code crash on `provider_config.get` with an uncaught
`AttributeError`, modelled as a distinguished error. -/
def ProviderFactory.get_provider (config : FactoryConfig) (provider_name : String) :
    Except ProviderError ProviderInstance :=
  match config.getProviderEntry provider_name with
  | none =>
      Except.error { message := "AttributeError: 'NoneType' object has no attribute 'get'" }
  | some provider_config =>
      if ¬ (provider_config.enabled.getD true) then
        Except.error { message := "Provider " ++ provider_name ++ " is disabled" }
      else
        ProviderFactory.create_provider provider_name provider_config

/-- The embedding-model allowlist checked for the azure branch of
`ProviderFactory._auto_detect_provider` (`src/providers/factory.py`
line 75). -/
def azure_embedding_models : List String :=
  ["text-embedding-ada-002", "text-embedding-3-small", "text-embedding-3-large"]

/-- `ProviderFactory._auto_detect_provider` (`src/providers/factory.py`
lines 63-78): prefix `claude` → claude; prefix `gpt` or `o1` → openai;
else, when the name contains `embedding`: containing `ada` or
`text-embedding` → openai, else exact membership in the embedding
allowlist → azure; otherwise no provider. -/
def ProviderFactory.auto_detect_provider (model : String) : Option String :=
  let model_lower := pyLower model
  if pyStartsWith model_lower "claude" then some "claude"
  else if pyStartsWith model_lower "gpt" || pyStartsWith model_lower "o1" then some "openai"
  else if pyContains model_lower "embedding" then
    if pyContains model_lower "ada" || pyContains model_lower "text-embedding" then
      some "openai"
    else if model_lower ∈ azure_embedding_models then
      some "azure"
    else none
  else none

/-- `ProviderFactory.get_provider_for_model` (`src/providers/factory.py`
lines 49-61): the mapping value is consulted first, but only a truthy
one is used (`if not provider_name:`); otherwise auto-detection runs;
a falsy final name raises `No provider configured for model: {model}`. -/
def ProviderFactory.get_provider_for_model (config : FactoryConfig) (model : String) :
    Except ProviderError ProviderInstance :=
  let mapped : Option String := config.model_mapping.lookup model
  let provider_name : Option String :=
    if pyTruthyStr mapped then mapped else ProviderFactory.auto_detect_provider model
  if pyTruthyStr provider_name then
    ProviderFactory.get_provider config (provider_name.getD "")
  else
    Except.error { message := "No provider configured for model: " ++ model }

/-- `ProviderFactory.list_available_providers` (`src/providers/factory.py`
lines 80-94): for each registered provider, an explicit `None` entry
reports `False`; otherwise the provider is reported enabled iff its
`enabled` value (defaulting to `False`) is truthy and the `api_key` key
is present. -/
def ProviderFactory.list_available_providers (config : FactoryConfig) :
    List (String × Bool) :=
  ProviderFactory.registered_providers.map fun provider_name =>
    (provider_name,
      match config.getProviderEntry provider_name with
      | none => false
      | some provider_config =>
          provider_config.enabled.getD false && provider_config.api_key.isSome)

/-- A raw (pre-validation) chat message, as the JSON object handed to
pydantic: each field may be absent. -/
structure RawChatMessage where
  role : Option String := none
  content : Option String := none
deriving DecidableEq, Repr

/-- A raw (pre-validation) chat request, as the JSON object handed to
pydantic: each field may be absent. -/
structure RawChatRequest where
  model : Option String := none
  messages : Option (List RawChatMessage) := none
  max_tokens : Option Int := none
  temperature : Option ℚ := none
  stream : Option Bool := none
  top_p : Option ℚ := none
  frequency_penalty : Option ℚ := none
  presence_penalty : Option ℚ := none
deriving DecidableEq, Repr

/-- Pydantic construction of `ChatMessage` (`src/providers/base.py`
lines 19-23): both fields are required and no further validator is
declared, so construction fails exactly when a field is missing. -/
def ChatMessage.validate (raw : RawChatMessage) : Except String ChatMessage :=
  match raw.role, raw.content with
  | some r, some c => Except.ok { role := r, content := c }
  | none, _ => Except.error "field required: role"
  | some _, none => Except.error "field required: content"

/-- Element-wise validation of the `messages` list, as pydantic performs
it for `List[ChatMessage]`: the first failing element fails the list. -/
def validateMessages : List RawChatMessage → Except String (List ChatMessage)
  | [] => Except.ok []
  | m :: ms =>
    match ChatMessage.validate m with
    | Except.error e => Except.error e
    | Except.ok v =>
      match validateMessages ms with
      | Except.error e => Except.error e
      | Except.ok vs => Except.ok (v :: vs)

/-- Pydantic construction of `ChatRequest` (`src/providers/base.py`
lines 25-35): `model` and `messages` are required, every message must
itself validate, the optional fields pass through with their defaults.
No validator constrains the message count, the role values or the sign
of `max_tokens`. -/
def ChatRequest.validate (raw : RawChatRequest) : Except String ChatRequest :=
  match raw.model with
  | none => Except.error "field required: model"
  | some m =>
    match raw.messages with
    | none => Except.error "field required: messages"
    | some msgs =>
      (validateMessages msgs).map fun ms =>
        { model := m
          messages := ms
          max_tokens := raw.max_tokens
          temperature := raw.temperature
          stream := raw.stream.getD false
          top_p := raw.top_p
          frequency_penalty := raw.frequency_penalty
          presence_penalty := raw.presence_penalty }

/-! ## Claim theorems -/

/-- C1: for every model present as a key in the configured
`model_mapping` table (whose values the config validator
`ProxyConfig.validate_model_mapping` in `src/config/models.py`
lines 77-84 restricts to the registered provider names), resolving the
model via `get_provider_for_model` delegates to `get_provider` of the
mapped provider — the mapped provider's adapter — regardless of what
the auto-detection heuristics would say; heuristics are consulted only
when the model has no mapping entry. -/
theorem c1_explicit_mapping_overrides_heuristics
    (config : FactoryConfig) (model provider_name : String)
    (hmap : config.model_mapping.lookup model = some provider_name)
    (hvalid : provider_name ∈ ProviderFactory.registered_providers) :
    ProviderFactory.get_provider_for_model config model
      = ProviderFactory.get_provider config provider_name := by
  have hne : provider_name ≠ "" := fun h => by
    subst h; exact absurd hvalid (by decide)
  have ht : pyTruthyStr (some provider_name) = true := by
    simp [pyTruthyStr, hne]
  simp [ProviderFactory.get_provider_for_model, hmap, ht]

/-- A configuration mapping `gpt-4` to azure, used to witness C1. -/
def c1ExampleProviderEntry : ProviderConfigDict :=
  { enabled := some true, api_key := some "azure-key",
    endpoint := some "https://example.openai.azure.com" }

def c1ExampleConfig : FactoryConfig :=
  { providers := [("azure", some c1ExampleProviderEntry)]
    model_mapping := [("claude-3-5-sonnet", "claude"), ("gpt-4", "azure")] }

/-- C1 witness: with `gpt-4` mapped to azure, resolution returns the
Azure adapter instance even though auto-detection would pick openai. -/
theorem c1_witness :
    ProviderFactory.get_provider_for_model c1ExampleConfig "gpt-4"
      = Except.ok (ProviderInstance.azure "azure-key"
          "https://example.openai.azure.com" "2024-10-21") ∧
    ProviderFactory.auto_detect_provider "gpt-4" = some "openai" := by
  constructor
  · rw [c1_explicit_mapping_overrides_heuristics c1ExampleConfig "gpt-4" "azure"
      (by decide) (by decide)]
    decide
  · decide

/-- C4: the auto-detection heuristics are evaluated in the stated
precedence order: a `claude` prefix detects the Anthropic-style
provider; otherwise a `gpt` or `o1` prefix detects the OpenAI-style
provider; and a model that is an exact (lowercased) member of the
embedding allowlist and matches no earlier heuristic — neither a
prefix rule nor the OpenAI embedding rule — detects the Azure-style
provider. -/
theorem c4_auto_detect_heuristics (model : String) :
    (pyStartsWith (pyLower model) "claude" = true →
      ProviderFactory.auto_detect_provider model = some "claude") ∧
    (pyStartsWith (pyLower model) "claude" = false →
      (pyStartsWith (pyLower model) "gpt" = true ∨ pyStartsWith (pyLower model) "o1" = true) →
      ProviderFactory.auto_detect_provider model = some "openai") ∧
    (pyLower model ∈ azure_embedding_models →
      pyStartsWith (pyLower model) "claude" = false →
      pyStartsWith (pyLower model) "gpt" = false →
      pyStartsWith (pyLower model) "o1" = false →
      ¬(pyContains (pyLower model) "embedding" = true ∧
        (pyContains (pyLower model) "ada" = true ∨
         pyContains (pyLower model) "text-embedding" = true)) →
      ProviderFactory.auto_detect_provider model = some "azure") := by
  refine ⟨?_, ?_, ?_⟩
  · intro h
    simp [ProviderFactory.auto_detect_provider, h]
  · intro h1 h2
    rcases h2 with h | h <;> simp [ProviderFactory.auto_detect_provider, h1, h]
  · intro hmem h1 h2 h3 hnotearly
    have hdisj : pyLower model = "text-embedding-ada-002" ∨
        pyLower model = "text-embedding-3-small" ∨
        pyLower model = "text-embedding-3-large" := by
      simpa [azure_embedding_models] using hmem
    rcases hdisj with h | h | h <;>
      exact absurd ⟨by rw [h]; decide, Or.inr (by rw [h]; decide)⟩ hnotearly

/-- C4 witness: concrete detections through the first two heuristics. -/
theorem c4_witness :
    ProviderFactory.auto_detect_provider "claude-3-opus" = some "claude" ∧
    ProviderFactory.auto_detect_provider "gpt-4" = some "openai" ∧
    ProviderFactory.auto_detect_provider "o1-mini" = some "openai" :=
  ⟨(c4_auto_detect_heuristics "claude-3-opus").1 (by decide),
   (c4_auto_detect_heuristics "gpt-4").2.1 (by decide) (Or.inl (by decide)),
   (c4_auto_detect_heuristics "o1-mini").2.1 (by decide) (Or.inr (by decide))⟩

/-- C9: a model with no mapping entry and no heuristic match makes
`get_provider_for_model` fail with the error naming exactly that
model. -/
theorem c9_model_not_configured (config : FactoryConfig) (model : String)
    (hmap : config.model_mapping.lookup model = none)
    (hauto : ProviderFactory.auto_detect_provider model = none) :
    ProviderFactory.get_provider_for_model config model
      = Except.error { message := "No provider configured for model: " ++ model } := by
  simp [ProviderFactory.get_provider_for_model, hmap, hauto, pyTruthyStr]

/-- C9 witness: `mistral-7b` has no mapping entry in the empty config
and matches no heuristic. -/
theorem c9_witness :
    ProviderFactory.get_provider_for_model {} "mistral-7b"
      = Except.error { message := "No provider configured for model: mistral-7b" } := by
  rw [c9_model_not_configured {} "mistral-7b" rfl (by decide)]
  decide

/-- Helper for C8: the entry reported by `list_available_providers` for
a registered provider, as a function of its configuration entry. -/
theorem list_available_providers_lookup (config : FactoryConfig) (provider_name : String)
    (hreg : provider_name ∈ ProviderFactory.registered_providers) :
    (ProviderFactory.list_available_providers config).lookup provider_name
      = some (match config.getProviderEntry provider_name with
              | none => false
              | some pc => pc.enabled.getD false && pc.api_key.isSome) := by
  have hdisj : provider_name = "claude" ∨ provider_name = "openai" ∨
      provider_name = "azure" := by
    simpa [ProviderFactory.registered_providers] using hreg
  rcases hdisj with h | h | h <;> subst h <;>
    simp [ProviderFactory.list_available_providers,
      ProviderFactory.registered_providers, List.lookup]

/-- C8: a registered provider whose configuration entry sets
`enabled = False` makes `get_provider` fail with the disabled-provider
error (no adapter is constructed or returned) and is reported `False`
by `list_available_providers`, whatever its `api_key`; and in general
`list_available_providers` reports a registered provider `True` exactly
when its entry both marks it enabled and contains an `api_key` key. -/
theorem c8_disabled_provider_and_enabled_listing
    (config : FactoryConfig) (provider_name : String)
    (hreg : provider_name ∈ ProviderFactory.registered_providers) :
    (∀ pc : ProviderConfigDict,
      config.getProviderEntry provider_name = some pc →
      pc.enabled = some false →
      ProviderFactory.get_provider config provider_name
          = Except.error { message := "Provider " ++ provider_name ++ " is disabled" } ∧
      (ProviderFactory.list_available_providers config).lookup provider_name = some false) ∧
    ((ProviderFactory.list_available_providers config).lookup provider_name = some true ↔
      ∃ pc : ProviderConfigDict,
        config.getProviderEntry provider_name = some pc ∧
        pc.enabled = some true ∧ pc.api_key.isSome = true) := by
  constructor
  · intro pc hentry hdis
    constructor
    · simp [ProviderFactory.get_provider, hentry, hdis]
    · rw [list_available_providers_lookup config provider_name hreg, hentry]
      simp [hdis]
  · rw [list_available_providers_lookup config provider_name hreg]
    constructor
    · intro h
      cases hentry : config.getProviderEntry provider_name with
      | none => rw [hentry] at h; simp at h
      | some pc =>
          rw [hentry] at h
          simp only [Option.some_inj] at h
          have h2 := h
          rw [Bool.and_eq_true] at h2
          refine ⟨pc, rfl, ?_, h2.2⟩
          cases hen : pc.enabled with
          | none => rw [hen] at h2; simp [Option.getD] at h2
          | some b =>
              rw [hen] at h2
              cases b
              · simp [Option.getD] at h2
              · rfl
    · rintro ⟨pc, hpc, hen, hkey⟩
      rw [hpc]
      simp [hen, hkey]

/-- A configuration with azure explicitly disabled but holding an
api_key, used to witness C8. -/
def c8ExampleProviderEntry : ProviderConfigDict :=
  { enabled := some false, api_key := some "azure-key",
    endpoint := some "https://example.openai.azure.com" }

def c8ExampleConfig : FactoryConfig :=
  { providers := [("azure", some c8ExampleProviderEntry)] }

/-- C8 witness: the disabled azure provider fails `get_provider` with
the disabled error and is listed as `False` despite its api_key. -/
theorem c8_witness :
    ProviderFactory.get_provider c8ExampleConfig "azure"
      = Except.error { message := "Provider azure is disabled" } ∧
    (ProviderFactory.list_available_providers c8ExampleConfig).lookup "azure"
      = some false := by
  obtain ⟨h1, h2⟩ :=
    (c8_disabled_provider_and_enabled_listing c8ExampleConfig "azure" (by decide)).1
      c8ExampleProviderEntry (by decide) rfl
  exact ⟨h1.trans (by decide), h2⟩

/-- C10: in the Anthropic request translation a temperature of exactly 0
is replaced by 0.7 — the very value used when temperature is absent —
and a top_p of exactly 0 is omitted from the payload: numeric zero is
treated as unset by the Python `or`/truthiness idioms. -/
theorem c10_zero_numeric_fields_treated_as_unset (request : ChatRequest) :
    (request.temperature = some 0 →
      (ClaudeProvider.convert_request_to_claude_format request).temperature = mkRat 7 10 ∧
      (ClaudeProvider.convert_request_to_claude_format request).temperature
        = (ClaudeProvider.convert_request_to_claude_format
            { request with temperature := none }).temperature) ∧
    (request.top_p = some 0 →
      (ClaudeProvider.convert_request_to_claude_format request).top_p = none) := by
  constructor
  · intro h
    constructor <;> simp [ClaudeProvider.convert_request_to_claude_format, h]
  · intro h
    simp [ClaudeProvider.convert_request_to_claude_format, h, pyTruthyQ]

/-- A request with temperature and top_p both exactly 0, witnessing C10. -/
def c10ExampleRequest : ChatRequest :=
  { model := "claude-3-opus-20240229"
    messages := [{ role := "user", content := "Hi" }]
    temperature := some 0
    top_p := some 0 }

/-- C10 witness: zero temperature becomes 0.7 and zero top_p is omitted. -/
theorem c10_witness :
    (ClaudeProvider.convert_request_to_claude_format c10ExampleRequest).temperature
        = mkRat 7 10 ∧
    (ClaudeProvider.convert_request_to_claude_format c10ExampleRequest).top_p = none :=
  ⟨((c10_zero_numeric_fields_treated_as_unset c10ExampleRequest).1 rfl).1,
   (c10_zero_numeric_fields_treated_as_unset c10ExampleRequest).2 rfl⟩

/-- C2 as stated: the Anthropic request translation removes every system
message, keeps the non-system messages in order, places every system
message's content in the top-level `system` field, and defaults
`max_tokens` to 4096 when unspecified. -/
def ClaimC2Statement : Prop :=
  ∀ request : ChatRequest,
    (ClaudeProvider.convert_request_to_claude_format request).messages
        = request.messages.filter (fun m => m.role ≠ "system") ∧
    (∀ m ∈ request.messages, m.role = "system" →
        (ClaudeProvider.convert_request_to_claude_format request).system = some m.content) ∧
    (request.max_tokens = none →
        (ClaudeProvider.convert_request_to_claude_format request).max_tokens = 4096)

/-- A request with two system messages, the last one empty: the
translation drops the first system content entirely and omits the
`system` field (the empty last value is falsy). -/
def c2CounterexampleRequest : ChatRequest :=
  { model := "claude-3-opus-20240229"
    messages := [{ role := "system", content := "Be terse" },
      { role := "system", content := "" }, { role := "user", content := "Hi" }] }

/-- C2 counterexample: on `c2CounterexampleRequest` the system message
`Be terse` is removed but its content is not placed in the `system`
field (the translation keeps only the last system content, and omits
the field when that content is empty). -/
theorem c2_counterexample : ¬ ClaimC2Statement := by
  intro h
  have hc := (h c2CounterexampleRequest).2.1
    { role := "system", content := "Be terse" } (by decide) rfl
  exact absurd hc (by decide)

/-- The `system_prompt` accumulation loop of the Anthropic translation
computes the content of the last system message (or the start value). -/
theorem claude_system_prompt_foldl (msgs : List ChatMessage) (acc : Option String) :
    msgs.foldl (fun a msg => if msg.role = "system" then some msg.content else a) acc
      = (match msgs.reverse.find? (fun m => m.role = "system") with
         | some m => some m.content
         | none => acc) := by
  induction msgs generalizing acc with
  | nil => simp
  | cons m ms ih =>
    rw [List.foldl_cons, ih, List.reverse_cons, List.find?_append]
    rcases hfind : ms.reverse.find? (fun x => decide (x.role = "system")) with _ | x
    · by_cases hm : m.role = "system" <;> simp [Option.or, List.find?, hm, hfind]
    · simp [Option.or, hfind]

/-- C2 amended: the translation removes every system message and keeps
the rest in order; the `system` field carries the content of the *last*
system message when that content is non-empty and is omitted otherwise
(earlier system contents are discarded); `max_tokens` defaults to 4096
when unspecified. -/
theorem c2_amended_system_split (request : ChatRequest) :
    (ClaudeProvider.convert_request_to_claude_format request).messages
        = request.messages.filter (fun m => m.role ≠ "system") ∧
    (ClaudeProvider.convert_request_to_claude_format request).system
        = (match request.messages.reverse.find? (fun m => m.role = "system") with
           | some m => if m.content = "" then none else some m.content
           | none => none) ∧
    (request.max_tokens = none →
        (ClaudeProvider.convert_request_to_claude_format request).max_tokens = 4096) := by
  refine ⟨rfl, ?_, ?_⟩
  · show (if pyTruthyStr (request.messages.foldl
        (fun a msg => if msg.role = "system" then some msg.content else a) none) then
          request.messages.foldl
            (fun a msg => if msg.role = "system" then some msg.content else a) none
        else none) = _
    rw [claude_system_prompt_foldl]
    rcases hfind : request.messages.reverse.find? (fun m => decide (m.role = "system"))
      with _ | x
    · simp [pyTruthyStr, hfind]
    · by_cases hx : x.content = "" <;> simp [pyTruthyStr, hx, hfind]
  · intro h
    simp [ClaudeProvider.convert_request_to_claude_format, h]

/-- The spec's concrete scenario request, witnessing the amended C2. -/
def c2ExampleRequest : ChatRequest :=
  { model := "claude-3-opus-20240229"
    messages := [{ role := "system", content := "Be terse" },
      { role := "user", content := "Hi" }] }

/-- C2 amended witness: the concrete scenario translates to
`system = Be terse`, `messages = [user Hi]`, `max_tokens = 4096`. -/
theorem c2_amended_witness :
    (ClaudeProvider.convert_request_to_claude_format c2ExampleRequest).messages
        = [{ role := "user", content := "Hi" }] ∧
    (ClaudeProvider.convert_request_to_claude_format c2ExampleRequest).system
        = some "Be terse" ∧
    (ClaudeProvider.convert_request_to_claude_format c2ExampleRequest).max_tokens = 4096 := by
  obtain ⟨h1, h2, h3⟩ := c2_amended_system_split c2ExampleRequest
  refine ⟨?_, ?_, h3 rfl⟩
  · rw [h1]; decide
  · rw [h2]; decide

/-- C3 as stated: for every finite upstream event sequence the stream
output starts with a chunk whose delta carries role `assistant`, and
exactly one chunk carries a non-null finish_reason, that chunk being
the last one emitted. -/
def ClaimC3Statement : Prop :=
  ∀ (now : Nat) (request : ChatRequest) (events : List ClaudeStreamEvent),
    (∃ c cs, ClaudeProvider.chat_completion_stream now request events = c :: cs ∧
      c.choices.any (fun ch => ch.delta.role == some "assistant") = true) ∧
    (ClaudeProvider.chat_completion_stream now request events).countP hasFinishReason = 1 ∧
    (∃ c, (ClaudeProvider.chat_completion_stream now request events).getLast? = some c ∧
      hasFinishReason c = true)

/-- C3 counterexample: a stream whose upstream emits `message_stop`
yields *two* finish-bearing chunks — the chunk translated from
`message_stop` and the unconditional defensive final chunk — so the
count is 2, not 1. -/
def c3ExampleRequest : ChatRequest :=
  { model := "claude-3-opus-20240229"
    messages := [{ role := "user", content := "Hi" }] }

theorem c3_counterexample : ¬ ClaimC3Statement := by
  intro h
  have hc := (h 0 c3ExampleRequest [ClaudeStreamEvent.messageStop]).2.1
  exact absurd hc (by decide)

/-- Structure of the processed event chunks: they always end with the
defensive final chunk, and when the upstream emitted no stop event no
earlier chunk bears a finish reason. -/
theorem process_stream_events_spec (now : Nat) (model : String)
    (events : List ClaudeStreamEvent) :
    ∃ l, ClaudeProvider.process_stream_events now model events
        = l ++ [ClaudeProvider.final_response now model] ∧
      (noStopEvent events = true → ∀ c ∈ l, hasFinishReason c = false) := by
  induction events with
  | nil => exact ⟨[], rfl, fun _ c hc => absurd hc (List.not_mem_nil c)⟩
  | cons e rest ih =>
    obtain ⟨l, hl, hno⟩ := ih
    cases e with
    | contentBlockDelta text =>
        cases text with
        | none =>
            refine ⟨l, ?_, ?_⟩
            · simpa [ClaudeProvider.process_stream_events] using hl
            · intro hns
              exact hno (by simpa [noStopEvent] using hns)
        | some t =>
            by_cases ht : t = ""
            · refine ⟨l, ?_, ?_⟩
              · simpa [ClaudeProvider.process_stream_events, ht] using hl
              · intro hns
                exact hno (by simpa [noStopEvent] using hns)
            · refine ⟨ClaudeProvider.content_chunk now model t :: l, ?_, ?_⟩
              · simp [ClaudeProvider.process_stream_events, ht, hl]
              · intro hns c hc
                rcases List.mem_cons.mp hc with hcc | hcl
                · subst hcc
                  simp [hasFinishReason, ClaudeProvider.content_chunk]
                · exact hno (by simpa [noStopEvent] using hns) c hcl
    | messageDelta stop =>
        cases stop with
        | none =>
            refine ⟨l, ?_, ?_⟩
            · simpa [ClaudeProvider.process_stream_events] using hl
            · intro hns
              exact hno (by simpa [noStopEvent] using hns)
        | some s =>
            by_cases hs : s = ""
            · refine ⟨l, ?_, ?_⟩
              · simpa [ClaudeProvider.process_stream_events, hs] using hl
              · intro hns
                exact hno (by simpa [noStopEvent, hs] using hns)
            · refine ⟨ClaudeProvider.finish_chunk now model s :: l, ?_, ?_⟩
              · simp [ClaudeProvider.process_stream_events, hs, hl]
              · intro hns
                exact absurd hns (by simp [noStopEvent, hs])
    | messageStop =>
        refine ⟨[ClaudeProvider.finish_chunk now model "stop"], rfl, ?_⟩
        intro hns
        exact absurd hns (by simp [noStopEvent])
    | otherEvent ty =>
        refine ⟨l, ?_, ?_⟩
        · simpa [ClaudeProvider.process_stream_events] using hl
        · intro hns
          exact hno (by simpa [noStopEvent] using hns)

/-- C3 amended: the first chunk is always the synthetic role-assistant
chunk and the last chunk always carries finish_reason `stop` (the
defensive final chunk); but exactly one finish-bearing chunk is
guaranteed only when the upstream emitted no stop event — a
`message_delta` stop reason or a `message_stop` yields its own finish
chunk *and* the unconditional final chunk, so such streams carry more
than one. -/
theorem c3_amended_stream_termination (now : Nat) (request : ChatRequest)
    (events : List ClaudeStreamEvent) :
    (ClaudeProvider.chat_completion_stream now request events).head?
        = some (ClaudeProvider.initial_response now request.model) ∧
    (ClaudeProvider.chat_completion_stream now request events).getLast?
        = some (ClaudeProvider.final_response now request.model) ∧
    (noStopEvent events = true →
      (ClaudeProvider.chat_completion_stream now request events).countP hasFinishReason
        = 1) := by
  obtain ⟨l, hl, hno⟩ := process_stream_events_spec now request.model events
  refine ⟨rfl, ?_, ?_⟩
  · show (ClaudeProvider.initial_response now request.model ::
        ClaudeProvider.process_stream_events now request.model events).getLast? = _
    rw [hl, ← List.cons_append, List.getLast?_concat]
  · intro hns
    show (ClaudeProvider.initial_response now request.model ::
        ClaudeProvider.process_stream_events now request.model events).countP
          hasFinishReason = 1
    rw [hl, List.countP_cons, List.countP_append]
    have h1 : hasFinishReason (ClaudeProvider.initial_response now request.model) = false := by
      simp [hasFinishReason, ClaudeProvider.initial_response]
    have h2 : l.countP hasFinishReason = 0 :=
      List.countP_eq_zero.mpr (fun c hc => by simp [hno hns c hc])
    have h3 : [ClaudeProvider.final_response now request.model].countP hasFinishReason
        = 1 := by
      simp [List.countP_cons, hasFinishReason, ClaudeProvider.final_response,
        ClaudeProvider.finish_chunk]
    rw [h1, h2, h3]
    simp

/-- C3 amended witness: a stream with one content event and no stop
event starts with the role chunk, ends with the defensive stop chunk
and carries exactly one finish-bearing chunk. -/
theorem c3_amended_witness :
    (ClaudeProvider.chat_completion_stream 0 c3ExampleRequest
        [ClaudeStreamEvent.contentBlockDelta (some "Hello")]).head?
      = some (ClaudeProvider.initial_response 0 "claude-3-opus-20240229") ∧
    (ClaudeProvider.chat_completion_stream 0 c3ExampleRequest
        [ClaudeStreamEvent.contentBlockDelta (some "Hello")]).countP hasFinishReason = 1 := by
  obtain ⟨h1, h2, h3⟩ := c3_amended_stream_termination 0 c3ExampleRequest
    [ClaudeStreamEvent.contentBlockDelta (some "Hello")]
  exact ⟨h1, h3 (by decide)⟩

/-- C5 as stated: every adapter clamps each transmitted sampling field
to the provider range — temperature to [0,2], top_p to [0,1], the
penalties to [-2,2] — before transmission (for the Anthropic adapter
the statement covers the fields its payload carries). -/
def ClaimC5Statement : Prop :=
  ∀ request : ChatRequest,
    (∀ t, request.temperature = some t →
      (OpenAIProvider.build_chat_params request).temperature = some (pyMax 0 (pyMin 2 t)) ∧
      (AzureOpenAIProvider.build_chat_payload request).temperature
          = some (pyMax 0 (pyMin 2 t)) ∧
      (ClaudeProvider.convert_request_to_claude_format request).temperature
          = pyMax 0 (pyMin 2 t)) ∧
    (∀ p, request.top_p = some p →
      (OpenAIProvider.build_chat_params request).top_p = some (pyMax 0 (pyMin 1 p)) ∧
      (AzureOpenAIProvider.build_chat_payload request).top_p = some (pyMax 0 (pyMin 1 p)) ∧
      (ClaudeProvider.convert_request_to_claude_format request).top_p
          = some (pyMax 0 (pyMin 1 p))) ∧
    (∀ f, request.frequency_penalty = some f →
      (OpenAIProvider.build_chat_params request).frequency_penalty
          = some (pyMax (-2) (pyMin 2 f)) ∧
      (AzureOpenAIProvider.build_chat_payload request).frequency_penalty
          = some (pyMax (-2) (pyMin 2 f))) ∧
    (∀ p, request.presence_penalty = some p →
      (OpenAIProvider.build_chat_params request).presence_penalty
          = some (pyMax (-2) (pyMin 2 p)) ∧
      (AzureOpenAIProvider.build_chat_payload request).presence_penalty
          = some (pyMax (-2) (pyMin 2 p)))

def c5CounterexampleRequest : ChatRequest :=
  { model := "claude-3-opus-20240229"
    messages := [{ role := "user", content := "Hi" }]
    temperature := some 5 }

/-- C5 counterexample: the Anthropic translation transmits an
out-of-range temperature of 5 unchanged instead of the clamped 2. -/
theorem c5_counterexample : ¬ ClaimC5Statement := by
  intro h
  have hc := ((h c5CounterexampleRequest).1 5 rfl).2.2
  exact absurd hc (by decide)

/-- C5 amended: the OpenAI-style and Azure-style adapters clamp each
transmitted sampling field to the provider range; the Anthropic adapter
does not clamp — it transmits temperature unchanged (except that a
falsy 0 becomes the 0.7 default) and top_p unchanged when non-zero
(omitting a zero), and its payload carries no penalty fields at all. -/
theorem c5_amended_clamping (request : ChatRequest) :
    (∀ t, request.temperature = some t →
      (OpenAIProvider.build_chat_params request).temperature = some (pyMax 0 (pyMin 2 t)) ∧
      (AzureOpenAIProvider.build_chat_payload request).temperature
          = some (pyMax 0 (pyMin 2 t)) ∧
      (ClaudeProvider.convert_request_to_claude_format request).temperature
          = (if t = 0 then mkRat 7 10 else t)) ∧
    (∀ p, request.top_p = some p →
      (OpenAIProvider.build_chat_params request).top_p = some (pyMax 0 (pyMin 1 p)) ∧
      (AzureOpenAIProvider.build_chat_payload request).top_p = some (pyMax 0 (pyMin 1 p)) ∧
      (ClaudeProvider.convert_request_to_claude_format request).top_p
          = (if p = 0 then none else some p)) ∧
    (∀ f, request.frequency_penalty = some f →
      (OpenAIProvider.build_chat_params request).frequency_penalty
          = some (pyMax (-2) (pyMin 2 f)) ∧
      (AzureOpenAIProvider.build_chat_payload request).frequency_penalty
          = some (pyMax (-2) (pyMin 2 f))) ∧
    (∀ p, request.presence_penalty = some p →
      (OpenAIProvider.build_chat_params request).presence_penalty
          = some (pyMax (-2) (pyMin 2 p)) ∧
      (AzureOpenAIProvider.build_chat_payload request).presence_penalty
          = some (pyMax (-2) (pyMin 2 p))) := by
  refine ⟨?_, ?_, ?_, ?_⟩
  · intro t ht
    refine ⟨?_, ?_, ?_⟩ <;>
      simp [OpenAIProvider.build_chat_params, AzureOpenAIProvider.build_chat_payload,
        ClaudeProvider.convert_request_to_claude_format, ht]
  · intro p hp
    by_cases h0 : p = 0 <;>
      refine ⟨?_, ?_, ?_⟩ <;>
        simp [OpenAIProvider.build_chat_params, AzureOpenAIProvider.build_chat_payload,
          ClaudeProvider.convert_request_to_claude_format, pyTruthyQ, hp, h0]
  · intro f hf
    constructor <;>
      simp [OpenAIProvider.build_chat_params, AzureOpenAIProvider.build_chat_payload, hf]
  · intro p hp
    constructor <;>
      simp [OpenAIProvider.build_chat_params, AzureOpenAIProvider.build_chat_payload, hp]

/-- A request with every sampling field out of range, witnessing the
amended C5. -/
def c5ExampleRequest : ChatRequest :=
  { model := "gpt-4"
    messages := [{ role := "user", content := "Hi" }]
    temperature := some 5
    top_p := some (mkRat 3 2)
    frequency_penalty := some (-3)
    presence_penalty := some 4 }

/-- C5 amended witness: out-of-range values are clamped by the OpenAI
and Azure payloads but transmitted raw by the Anthropic translation. -/
theorem c5_amended_witness :
    (OpenAIProvider.build_chat_params c5ExampleRequest).temperature = some 2 ∧
    (AzureOpenAIProvider.build_chat_payload c5ExampleRequest).temperature = some 2 ∧
    (ClaudeProvider.convert_request_to_claude_format c5ExampleRequest).temperature = 5 ∧
    (OpenAIProvider.build_chat_params c5ExampleRequest).top_p = some 1 ∧
    (ClaudeProvider.convert_request_to_claude_format c5ExampleRequest).top_p
        = some (mkRat 3 2) ∧
    (OpenAIProvider.build_chat_params c5ExampleRequest).frequency_penalty = some (-2) ∧
    (OpenAIProvider.build_chat_params c5ExampleRequest).presence_penalty = some 2 := by
  obtain ⟨h1, h2, h3, h4⟩ := c5_amended_clamping c5ExampleRequest
  obtain ⟨ha, hb, hc⟩ := h1 5 rfl
  obtain ⟨hd, he, hf⟩ := h2 (mkRat 3 2) rfl
  exact ⟨ha.trans (by decide), hb.trans (by decide), hc.trans (by decide),
    hd.trans (by decide), hf.trans (by decide),
    ((h3 (-3) rfl).1).trans (by decide), ((h4 4 rfl).1).trans (by decide)⟩

/-- C6 as stated: construction of a canonical `ChatRequest` fails when
the messages list is empty, when a message's role is outside
{system, user, assistant}, or when `max_tokens` is negative. -/
def ClaimC6Statement : Prop :=
  ∀ raw : RawChatRequest,
    (raw.messages = some [] → exceptIsOk (ChatRequest.validate raw) = false) ∧
    (∀ ms, raw.messages = some ms →
      ∀ rm ∈ ms, ∀ r, rm.role = some r →
        r ∉ (["system", "user", "assistant"] : List String) →
        exceptIsOk (ChatRequest.validate raw) = false) ∧
    (∀ n : Int, raw.max_tokens = some n → n < 0 →
      exceptIsOk (ChatRequest.validate raw) = false)

/-- C6 counterexample: a request with an empty messages list validates
successfully — pydantic only checks field presence here. -/
theorem c6_counterexample : ¬ ClaimC6Statement := by
  intro h
  have hc := (h { model := some "gpt-4", messages := some [] }).1 rfl
  exact absurd hc (by decide)

/-- Helper for C6: message-list validation succeeds exactly when every
raw message carries both required fields. -/
theorem validateMessages_isOk (msgs : List RawChatMessage) :
    exceptIsOk (validateMessages msgs)
      = msgs.all (fun m => m.role.isSome && m.content.isSome) := by
  induction msgs with
  | nil => rfl
  | cons m ms ih =>
    rcases hr : m.role with _ | r <;> rcases hc : m.content with _ | c <;>
      rcases hres : validateMessages ms with e | v <;>
        simp_all [validateMessages, ChatMessage.validate, exceptIsOk]

/-- Mapping the success value leaves the success status unchanged. -/
theorem exceptIsOk_map {ε α β : Type} (f : α → β) (x : Except ε α) :
    exceptIsOk (x.map f) = exceptIsOk x := by
  cases x <;> rfl

/-- C6 amended: `ChatRequest` construction fails only for a missing
required field — `model`, `messages`, or a message's `role`/`content` —
and accepts empty message lists, arbitrary role strings and negative
`max_tokens` (the pydantic model declares no validators for those). -/
theorem c6_amended_validation_only_checks_presence (raw : RawChatRequest) :
    exceptIsOk (ChatRequest.validate raw)
      = (raw.model.isSome &&
         match raw.messages with
         | some msgs => msgs.all (fun m => m.role.isSome && m.content.isSome)
         | none => false) := by
  rcases hm : raw.model with _ | m
  · simp [ChatRequest.validate, hm, exceptIsOk]
  · rcases hmsgs : raw.messages with _ | msgs
    · simp [ChatRequest.validate, hm, hmsgs, exceptIsOk]
    · have hmap := validateMessages_isOk msgs
      simp only [ChatRequest.validate, hm, hmsgs]
      rw [exceptIsOk_map, hmap]
      simp

/-- C7 as stated: every adapter's support test is exact membership in
its static allowlist (no prefix/substring/wildcard matching), and chat
or embeddings calls for unsupported models fail. -/
def ClaimC7Statement : Prop :=
  (∀ m, OpenAIProvider.is_model_supported m = true ↔ m ∈ openai_models) ∧
  (∀ m, AzureOpenAIProvider.is_model_supported m = true ↔ m ∈ azure_models) ∧
  (∀ m, ClaudeProvider.is_model_supported m = true ↔
    m ∈ ClaudeProvider.get_supported_models) ∧
  (∀ request : ChatRequest, OpenAIProvider.is_model_supported request.model = false →
    exceptIsOk (OpenAIProvider.chat_completion request) = false) ∧
  (∀ request : ChatRequest, AzureOpenAIProvider.is_model_supported request.model = false →
    exceptIsOk (AzureOpenAIProvider.chat_completion request) = false) ∧
  (∀ request : ChatRequest, ClaudeProvider.is_model_supported request.model = false →
    exceptIsOk (ClaudeProvider.chat_completion request) = false) ∧
  (∀ request : EmbeddingRequest, OpenAIProvider.is_model_supported request.model = false →
    exceptIsOk (OpenAIProvider.create_embeddings request) = false) ∧
  (∀ request : EmbeddingRequest, AzureOpenAIProvider.is_model_supported request.model = false →
    exceptIsOk (AzureOpenAIProvider.create_embeddings request) = false) ∧
  (∀ request : EmbeddingRequest, exceptIsOk (ClaudeProvider.create_embeddings request) = false)

/-- C7 counterexample: the Claude support test accepts the bare string
`claude`, which is not a member of its allowlist, because the loop
`if model_lower in supported_model.lower()` performs substring
matching. -/
theorem c7_counterexample : ¬ ClaimC7Statement := by
  intro h
  exact absurd ((h.2.2.1 "claude").mp (by decide)) (by decide)

/-- C7 amended: the OpenAI-style and Azure-style support tests are exact
allowlist membership, but the Anthropic-style test is case-insensitive
and additionally accepts any model whose lowercased name occurs as a
substring of a lowercased supported id; chat calls for unsupported
models still fail, embeddings calls for unsupported models fail on the
OpenAI and Azure adapters, and the Anthropic adapter rejects every
embeddings call. -/
theorem c7_amended_support_semantics :
    (∀ m, OpenAIProvider.is_model_supported m = true ↔ m ∈ openai_models) ∧
    (∀ m, AzureOpenAIProvider.is_model_supported m = true ↔ m ∈ azure_models) ∧
    (∀ m, ClaudeProvider.is_model_supported m = true ↔
      (pyLower m ∈ ClaudeProvider.get_supported_models.map pyLower ∨
       ∃ s ∈ ClaudeProvider.get_supported_models,
         pyContains (pyLower s) (pyLower m) = true)) ∧
    (∀ request : ChatRequest, OpenAIProvider.is_model_supported request.model = false →
      exceptIsOk (OpenAIProvider.chat_completion request) = false) ∧
    (∀ request : ChatRequest, AzureOpenAIProvider.is_model_supported request.model = false →
      exceptIsOk (AzureOpenAIProvider.chat_completion request) = false) ∧
    (∀ request : ChatRequest, ClaudeProvider.is_model_supported request.model = false →
      exceptIsOk (ClaudeProvider.chat_completion request) = false) ∧
    (∀ request : EmbeddingRequest, OpenAIProvider.is_model_supported request.model = false →
      exceptIsOk (OpenAIProvider.create_embeddings request) = false) ∧
    (∀ request : EmbeddingRequest,
      AzureOpenAIProvider.is_model_supported request.model = false →
      exceptIsOk (AzureOpenAIProvider.create_embeddings request) = false) ∧
    (∀ request : EmbeddingRequest,
      exceptIsOk (ClaudeProvider.create_embeddings request) = false) := by
  refine ⟨fun m => ?_, fun m => ?_, fun m => ?_, fun request h => ?_, fun request h => ?_,
    fun request h => ?_, fun request h => ?_, fun request h => ?_, fun request => rfl⟩
  · simp [OpenAIProvider.is_model_supported]
  · simp [AzureOpenAIProvider.is_model_supported]
  · by_cases hmem : pyLower m ∈ ClaudeProvider.get_supported_models.map pyLower
    · simp [ClaudeProvider.is_model_supported, hmem]
    · simp [ClaudeProvider.is_model_supported, hmem, List.any_eq_true]
  · simp [OpenAIProvider.chat_completion, h, exceptIsOk]
  · simp [AzureOpenAIProvider.chat_completion, h, exceptIsOk]
  · simp [ClaudeProvider.chat_completion, h, exceptIsOk]
  · simp [OpenAIProvider.create_embeddings, h, exceptIsOk]
  · simp [AzureOpenAIProvider.create_embeddings, h, exceptIsOk]

/-- A chat request for a model no adapter supports, used in the C7
amended witness. -/
def c7ExampleRequest : ChatRequest :=
  { model := "gpt-5-turbo"
    messages := [{ role := "user", content := "Hi" }] }

/-- C7 amended witness: concrete support decisions and a rejected chat
call for an unsupported model. -/
theorem c7_amended_witness :
    ClaudeProvider.is_model_supported "claude" = true ∧
    OpenAIProvider.is_model_supported "gpt-4" = true ∧
    exceptIsOk (OpenAIProvider.chat_completion c7ExampleRequest) = false :=
  ⟨(c7_amended_support_semantics.2.2.1 "claude").mpr
      (Or.inr ⟨"claude-3-5-sonnet-20241022", by decide, by decide⟩),
   (c7_amended_support_semantics.1 "gpt-4").mpr (by decide),
   c7_amended_support_semantics.2.2.2.1 c7ExampleRequest (by decide)⟩
